import Mathlib

/-!
Verification development for the micropsi2 world-adapter core
(`micropsi_core/world/worldadapter.py`) and the time-series playback world
(`micropsi_core/world/timeseries/timeseries.py`).

Python values are shallowly embedded:
* numpy float buffers become `List ℚ` (exact rationals stand in for floats;
  none of the proved properties depends on rounding);
* possibly-NaN floats become `Option ℚ` with `none` playing the role of NaN;
* Python dictionaries become insertion-ordered association lists;
* fallible operations return `Except PyError`.
-/

/-- Python exceptions that the embedded operations can raise. -/
inductive PyError where
  | valueError
  | keyError
  | attributeError
  | indexError
  | zeroDivisionError
  deriving DecidableEq, Repr

/-- Product of a list of naturals, as computed by
`functools.reduce(operator.mul, shape, 1)` (a left fold starting from 1). -/
def listProd (shape : List Nat) : Nat :=
  shape.foldl (fun a b => a * b) 1

/-- Truthiness of a numpy float array, as tested by `if initial_values:` in
`add_datasource_group` / `add_datatarget_group`. An empty array is falsy, a
one-element array has the truth value of its element, and any larger array
raises `ValueError` (the truth value of a multi-element array is ambiguous). -/
def npTruthy (a : List ℚ) : Except PyError Bool :=
  match a with
  | [] => .ok false
  | [x] => .ok (decide (x ≠ 0))
  | _ => .error .valueError

/-- Code-point-wise lexicographic comparison of character lists, the order
Python uses to compare strings. -/
def lexLe : List Char → List Char → Bool
  | [], _ => true
  | _ :: _, [] => false
  | a :: as, b :: bs =>
    if a.toNat < b.toNat then true
    else if b.toNat < a.toNat then false
    else lexLe as bs

/-- Python string comparison `a <= b`. -/
def strLe (a b : String) : Bool := lexLe a.data b.data

/-- Insert a string into an (ascending) sorted list, keeping it sorted. -/
def insertSorted (x : String) : List String → List String
  | [] => [x]
  | y :: ys => if strLe x y then x :: y :: ys else y :: insertSorted x ys

/-- Python `sorted` on a list of strings (ascending lexicographic order). -/
def sortedStrings (l : List String) : List String :=
  l.foldr insertSorted []

/-- Association-list lookup standing in for `dict.get` (returns `none` when
the key is absent, exactly like Python's `dict.get` returns `None`). -/
def alookup (l : List (String × ℚ)) (k : String) : Option ℚ :=
  match l with
  | [] => none
  | (k', v) :: rest => if k' = k then some v else alookup rest k

/-- Association-list update standing in for `dict[k] = v`: replaces the first
binding of `k` if present, otherwise appends (Python dicts keep insertion order). -/
def dictSet {β : Type} (l : List (String × β)) (k : String) (v : β) : List (String × β) :=
  match l with
  | [] => [(k, v)]
  | (k', v') :: rest => if k' = k then (k, v) :: rest else (k', v') :: dictSet rest k v

/-- The dictionary-based `WorldAdapter` base class: three name→value
dictionaries (`datasources`, `datatargets`, `datatarget_feedback`), all empty
after `__init__`. -/
structure WorldAdapter where
  datasources : List (String × ℚ)
  datatargets : List (String × ℚ)
  datatarget_feedback : List (String × ℚ)
  deriving DecidableEq, Repr

/-- A freshly constructed dictionary-based adapter (`__init__` sets all three
dictionaries to `{}`). -/
def emptyWorldAdapter : WorldAdapter := ⟨[], [], []⟩

/-- `WorldAdapter.get_available_datasources`:
`return sorted(list(self.datasources.keys()))`. -/
def WorldAdapter.get_available_datasources (w : WorldAdapter) : List String :=
  sortedStrings (w.datasources.map Prod.fst)

/-- `WorldAdapter.get_available_datatargets`:
`return sorted(list(self.datatargets.keys()))`. -/
def WorldAdapter.get_available_datatargets (w : WorldAdapter) : List String :=
  sortedStrings (w.datatargets.map Prod.fst)

/-- `WorldAdapter.get_datasource_value`: `return self.datasources.get(key)` —
yields Python `None` (here `none`) for an unknown key, raising nothing. -/
def WorldAdapter.get_datasource_value (w : WorldAdapter) (key : String) : Option ℚ :=
  alookup w.datasources key

/-- `WorldAdapter.get_datasource_values`: values of all datasources in the
order of `get_available_datasources()`. The `KeyError` branch of
`self.datasources[x]` is unreachable because the names are the dictionary's
own keys, so the read is modelled with a default. -/
def WorldAdapter.get_datasource_values (w : WorldAdapter) : List ℚ :=
  (w.get_available_datasources).map (fun k => (alookup w.datasources k).getD 0)

/-- `WorldAdapter.get_datatarget_feedback_value`:
`return self.datatarget_feedback.get(key, 0)` — yields the default `0` for an
unknown key, raising nothing. -/
def WorldAdapter.get_datatarget_feedback_value (w : WorldAdapter) (key : String) : ℚ :=
  (alookup w.datatarget_feedback key).getD 0

/-- `WorldAdapter.reset_datatargets`: sets every datatarget value to 0,
leaving the key set untouched. -/
def WorldAdapter.reset_datatargets (w : WorldAdapter) : WorldAdapter :=
  { w with datatargets := w.datatargets.map (fun kv => (kv.1, 0)) }

/-- The two calls the body of `WorldAdapter.update` makes, in source order. -/
inductive AdapterCall where
  | update_data_sources_and_targets
  | reset_datatargets
  deriving DecidableEq, Repr

/-- The body of `WorldAdapter.update` as the sequence of calls it performs
(line 146 then line 147 of `worldadapter.py`). -/
def WorldAdapter.updateBody : List AdapterCall :=
  [AdapterCall.update_data_sources_and_targets, AdapterCall.reset_datatargets]

/-- Interpretation of one call of the update body on a dictionary-based
adapter. `update_data_sources_and_targets` is abstract in the source, so it is
a parameter `hook`. -/
def WorldAdapter.execCall (hook : WorldAdapter → WorldAdapter) :
    AdapterCall → WorldAdapter → WorldAdapter
  | .update_data_sources_and_targets, w => hook w
  | .reset_datatargets, w => w.reset_datatargets

/-- `WorldAdapter.update`: runs the update body in source order. -/
def WorldAdapter.update (hook : WorldAdapter → WorldAdapter) (w : WorldAdapter) :
    WorldAdapter :=
  WorldAdapter.updateBody.foldl (fun st c => WorldAdapter.execCall hook c st) w

/-- The numpy-backed `ArrayWorldAdapter`: flat value buffers, name lists, and
group-name → slice dictionaries. Slices are stored as `(start, stop)` pairs. -/
structure ArrayWorldAdapter where
  datasource_names : List String
  datatarget_names : List String
  _datasource_groups : List (String × (Nat × Nat))
  _datatarget_groups : List (String × (Nat × Nat))
  datasource_values : List ℚ
  datatarget_values : List ℚ
  datatarget_feedback_values : List ℚ
  deriving DecidableEq, Repr

/-- A freshly constructed `ArrayWorldAdapter` (`__init__` sets empty name
lists, empty group dictionaries and `np.zeros(0)` buffers). -/
def emptyArrayWorldAdapter : ArrayWorldAdapter := ⟨[], [], [], [], [], [], []⟩

/-- `ArrayWorldAdapter.add_datasource`: appends the name and the initial value
unconditionally (there is no duplicate-name check in the source) and returns
`len(self.datasource_names) - 1`. -/
def ArrayWorldAdapter.add_datasource (w : ArrayWorldAdapter) (name : String)
    (initial_value : ℚ) : ArrayWorldAdapter × Nat :=
  ({ w with
      datasource_names := w.datasource_names ++ [name],
      datasource_values := w.datasource_values ++ [initial_value] },
   (w.datasource_names ++ [name]).length - 1)

/-- `ArrayWorldAdapter.add_datatarget`: appends the name, extends the target
buffer with the initial value and the feedback buffer with the same initial
value, then returns `len(self.datatarget_names) - 1`. -/
def ArrayWorldAdapter.add_datatarget (w : ArrayWorldAdapter) (name : String)
    (initial_value : ℚ) : ArrayWorldAdapter × Nat :=
  ({ w with
      datatarget_names := w.datatarget_names ++ [name],
      datatarget_values := w.datatarget_values ++ [initial_value],
      datatarget_feedback_values := w.datatarget_feedback_values ++ [initial_value] },
   (w.datatarget_names ++ [name]).length - 1)

/-- Row-major digits of a flat offset, as `np.unravel_index` computes one
multi-index: coordinate `j` is `(i / prod(later dims)) % dim j`. -/
def unravelIndex : List Nat → Nat → List Nat
  | [], _ => []
  | d :: ds, i => (i / listProd ds) % d :: unravelIndex ds (i % listProd ds)

/-- The member names `basename_i0_i1_...` for the first `size` row-major
offsets within `shape`, as `'_'.join(parts)` builds them. -/
def memberNames (basename : String) (size : Nat) (shape : List Nat) : List String :=
  (List.range size).map (fun i =>
    String.intercalate "_" (basename :: (unravelIndex shape i).map toString))

/-- `ArrayWorldAdapter._generate_names`: synthesizes the member names for a
group. `np.unravel_index(np.arange(size), shape)` raises `ValueError` when
some offset does not fit in `shape`, i.e. when `size > prod(shape)`. -/
def _generate_names (basename : String) (size : Nat) (shape : List Nat) :
    Except PyError (List String) :=
  if size ≤ listProd shape then .ok (memberNames basename size shape)
  else .error .valueError

/-- The `initial_values` handling shared by `add_datasource_group` and
`add_datatarget_group`: absent or falsy initial values give `prod(shape)`
zeros, truthy values are flattened and their size is used, and a multi-element
array raises `ValueError` at the `if initial_values:` test. -/
def groupInitValues (shape : List Nat) (initial_values : Option (List ℚ)) :
    Except PyError (Nat × List ℚ) :=
  match initial_values with
  | none => .ok (listProd shape, List.replicate (listProd shape) 0)
  | some a =>
    match npTruthy a with
    | .error e => .error e
    | .ok true => .ok (a.length, a)
    | .ok false => .ok (listProd shape, List.replicate (listProd shape) 0)

/-- `ArrayWorldAdapter.add_datasource_group`: resolves the initial values,
synthesizes member names, records the slice
`slice(len(names), len(names) + size)`, extends the name list and the value
buffer, and returns the slice. -/
def ArrayWorldAdapter.add_datasource_group (w : ArrayWorldAdapter) (name : String)
    (shape : List Nat) (initial_values : Option (List ℚ)) :
    Except PyError (ArrayWorldAdapter × (Nat × Nat)) :=
  match groupInitValues shape initial_values with
  | .error e => .error e
  | .ok (size, init) =>
    match _generate_names name size shape with
    | .error e => .error e
    | .ok names =>
      let slce := (w.datasource_names.length, w.datasource_names.length + size)
      .ok ({ w with
              _datasource_groups := dictSet w._datasource_groups name slce,
              datasource_names := w.datasource_names ++ names,
              datasource_values := w.datasource_values ++ init },
           slce)

/-- `ArrayWorldAdapter.add_datatarget_group`: like the datasource version, and
additionally extends the feedback buffer with `np.zeros(size)`. -/
def ArrayWorldAdapter.add_datatarget_group (w : ArrayWorldAdapter) (name : String)
    (shape : List Nat) (initial_values : Option (List ℚ)) :
    Except PyError (ArrayWorldAdapter × (Nat × Nat)) :=
  match groupInitValues shape initial_values with
  | .error e => .error e
  | .ok (size, init) =>
    match _generate_names name size shape with
    | .error e => .error e
    | .ok names =>
      let slce := (w.datatarget_names.length, w.datatarget_names.length + size)
      .ok ({ w with
              _datatarget_groups := dictSet w._datatarget_groups name slce,
              datatarget_names := w.datatarget_names ++ names,
              datatarget_values := w.datatarget_values ++ init,
              datatarget_feedback_values :=
                w.datatarget_feedback_values ++ List.replicate size 0 },
           slce)

/-- `ArrayWorldAdapter.get_available_datasources`: returns the name list as
is, in registration order. -/
def ArrayWorldAdapter.get_available_datasources (w : ArrayWorldAdapter) : List String :=
  w.datasource_names

/-- `ArrayWorldAdapter.get_available_datatargets`: returns the name list as
is, in registration order. -/
def ArrayWorldAdapter.get_available_datatargets (w : ArrayWorldAdapter) : List String :=
  w.datatarget_names

/-- `ArrayWorldAdapter.get_datasource_index`: `self.datasource_names.index(name)`,
which raises `ValueError` when the name is absent. -/
def ArrayWorldAdapter.get_datasource_index (w : ArrayWorldAdapter) (name : String) :
    Except PyError Nat :=
  match w.datasource_names.findIdx? (fun y => y = name) with
  | some i => .ok i
  | none => .error .valueError

/-- `ArrayWorldAdapter.get_datatarget_index`: `self.datatarget_names.index(name)`,
which raises `ValueError` when the name is absent. -/
def ArrayWorldAdapter.get_datatarget_index (w : ArrayWorldAdapter) (name : String) :
    Except PyError Nat :=
  match w.datatarget_names.findIdx? (fun y => y = name) with
  | some i => .ok i
  | none => .error .valueError

/-- `ArrayWorldAdapter.get_datasource_value`: indexes the value buffer at the
resolved index (an out-of-range read would raise `IndexError`). -/
def ArrayWorldAdapter.get_datasource_value (w : ArrayWorldAdapter) (key : String) :
    Except PyError ℚ :=
  match w.get_datasource_index key with
  | .error e => .error e
  | .ok i =>
    match w.datasource_values[i]? with
    | some v => .ok v
    | none => .error .indexError

/-- `ArrayWorldAdapter.get_datatarget_value`: indexes the target buffer at the
resolved index. -/
def ArrayWorldAdapter.get_datatarget_value (w : ArrayWorldAdapter) (key : String) :
    Except PyError ℚ :=
  match w.get_datatarget_index key with
  | .error e => .error e
  | .ok i =>
    match w.datatarget_values[i]? with
    | some v => .ok v
    | none => .error .indexError

/-- `ArrayWorldAdapter.get_datatarget_feedback_value`: indexes the feedback
buffer at the index resolved through `get_datatarget_index`. -/
def ArrayWorldAdapter.get_datatarget_feedback_value (w : ArrayWorldAdapter) (key : String) :
    Except PyError ℚ :=
  match w.get_datatarget_index key with
  | .error e => .error e
  | .ok i =>
    match w.datatarget_feedback_values[i]? with
    | some v => .ok v
    | none => .error .indexError

/-- A numpy array: a shape together with the row-major flat data. -/
structure NpArray where
  shape : List Nat
  data : List ℚ
  deriving DecidableEq, Repr

/-- Python slicing `values[a:b]` on a flat buffer. -/
def pySlice (l : List ℚ) (a b : Nat) : List ℚ :=
  (l.drop a).take (b - a)

/-- `ArrayWorldAdapter.get_datasource_group`: reads the group's slice of the
value buffer (a missing group name raises `KeyError`), then optionally
reshapes it; `reshape` raises `ValueError` unless `prod(shape)` equals the
slice length. -/
def ArrayWorldAdapter.get_datasource_group (w : ArrayWorldAdapter) (name : String)
    (shape : Option (List Nat)) : Except PyError NpArray :=
  match w._datasource_groups.lookup name with
  | none => .error .keyError
  | some (a, b) =>
    let data := pySlice w.datasource_values a b
    match shape with
    | none => .ok ⟨[data.length], data⟩
    | some sh =>
      if listProd sh = data.length then .ok ⟨sh, data⟩ else .error .valueError

/-- `ArrayWorldAdapter.get_datatarget_group`: like the datasource version, on
the target buffer. -/
def ArrayWorldAdapter.get_datatarget_group (w : ArrayWorldAdapter) (name : String)
    (shape : Option (List Nat)) : Except PyError NpArray :=
  match w._datatarget_groups.lookup name with
  | none => .error .keyError
  | some (a, b) =>
    let data := pySlice w.datatarget_values a b
    match shape with
    | none => .ok ⟨[data.length], data⟩
    | some sh =>
      if listProd sh = data.length then .ok ⟨sh, data⟩ else .error .valueError

/-- `ArrayWorldAdapter.reset_datatargets`: the override is `pass` (the zeroing
line is commented out in the source), so the adapter is returned unchanged. -/
def ArrayWorldAdapter.reset_datatargets (w : ArrayWorldAdapter) : ArrayWorldAdapter :=
  w

/-- Interpretation of one call of the inherited update body on an
`ArrayWorldAdapter`, with the abstract
`update_data_sources_and_targets` as a parameter `hook`. -/
def ArrayWorldAdapter.execCall (hook : ArrayWorldAdapter → ArrayWorldAdapter) :
    AdapterCall → ArrayWorldAdapter → ArrayWorldAdapter
  | .update_data_sources_and_targets, w => hook w
  | .reset_datatargets, w => w.reset_datatargets

/-- `update` as inherited by `ArrayWorldAdapter` from `WorldAdapter`: the same
body, dispatching to the overridden `reset_datatargets`. -/
def ArrayWorldAdapter.update (hook : ArrayWorldAdapter → ArrayWorldAdapter)
    (w : ArrayWorldAdapter) : ArrayWorldAdapter :=
  WorldAdapter.updateBody.foldl (fun st c => ArrayWorldAdapter.execCall hook c st) w

/-- Values of the dataset: `none` stands for NaN. -/
abbrev TSVal := Option ℚ

/-- The defined (non-NaN) entries of a row, as the `np.nan*` reductions see
them. -/
def nanVals (row : List TSVal) : List ℚ :=
  row.filterMap id

/-- `np.nanmean`: mean of the defined entries (the callers only evaluate it on
rows with at least one defined entry; the empty case is totalized to 0). -/
def nanmean (row : List TSVal) : ℚ :=
  if (nanVals row).length = 0 then 0
  else (nanVals row).sum / (nanVals row).length

/-- `np.nanvar`: population variance of the defined entries (same
totalization remark as for `nanmean`). -/
def nanvar (row : List TSVal) : ℚ :=
  if (nanVals row).length = 0 then 0
  else ((nanVals row).map (fun v => (v - nanmean row) ^ 2)).sum / (nanVals row).length

/-- The normalization applied once in `TimeSeries.__init__` on the effective
configuration `z_transform = True`, `clip_and_scale = False`, `sigmoid = True`
hard-coded there. `data_z` starts all-NaN; a row is only assigned when it has
a defined entry and `std > 0` (equivalently `var > 0`, since
`std = sqrt(var)`); afterwards `sigm` is applied elementwise, with NaN
propagating through it (`np.nan_to_num(NaN) = 0` is not `<= -cutoff`, and
`exp(NaN) = NaN`). The scalar z-transform `(x - mean)/std` involves an
irrational square root, so it is abstracted as the parameter `zscale`
(applied to the value, the row mean and the row variance), and the logistic
guard as the parameter `sigm`; every theorem below holds for all
instantiations, in particular for the real ones. -/
def loadNormalize (zscale : ℚ → ℚ → ℚ → ℚ) (sigm : ℚ → ℚ)
    (ts : List (List TSVal)) : List (List TSVal) :=
  let data_z := ts.map (fun row =>
    if row.all (fun x => x.isNone) then List.replicate row.length (none : TSVal)
    else if 0 < nanvar row then
      row.map (Option.map (fun v => zscale v (nanmean row) (nanvar row)))
    else List.replicate row.length (none : TSVal))
  data_z.map (fun row => row.map (Option.map sigm))

/-- The playback state of the `TimeSeries` world: the (already normalized)
dataset, its time length `len_ts = timeseries.shape[1]`, the `shuffle` flag,
the `permutation` attribute (`none` until first assigned — reading it before
that raises `AttributeError`), and the world's step counter. -/
structure TimeSeries where
  timeseries : List (List TSVal)
  len_ts : Nat
  shuffle : Bool
  permutation : Option (List Nat)
  current_step : Nat
  deriving DecidableEq, Repr

/-- Column `t` of the dataset, `self.timeseries[:, t]` (callers establish
`t < len_ts`; entries of short rows are totalized to NaN). -/
def colAt (m : List (List TSVal)) (t : Nat) : List TSVal :=
  m.map (fun row => row.getD t none)

/-- The index computation of the `TimeSeries.state` property: computes
`t = (self.current_step - 1) % self.len_ts` (Python integer arithmetic, hence
the `Int` detour), regenerates `self.permutation` from the supplied fresh
permutation exactly when `shuffle` is set and `t == 0`, remaps `t` through the
permutation when shuffling, and returns the updated world together with the
visited time index. `np.random.permutation` is an external source of
randomness, so the freshly drawn permutation is the explicit argument
`fresh`. -/
def TimeSeries.stateIdx (w : TimeSeries) (fresh : List Nat) :
    Except PyError (TimeSeries × Nat) :=
  if w.len_ts = 0 then .error .zeroDivisionError
  else
    let t : Nat := (((w.current_step : Int) - 1) % (w.len_ts : Int)).toNat
    if w.shuffle then
      let wp := if t = 0 then { w with permutation := some fresh } else w
      match wp.permutation with
      | none => .error .attributeError
      | some p =>
        match p[t]? with
        | none => .error .indexError
        | some t2 => .ok (wp, t2)
    else .ok (w, t)

/-- The `TimeSeries.state` property: the visited column of the dataset
(`return self.timeseries[:, t]`; a visited index outside the dataset raises
`IndexError`). -/
def TimeSeries.state (w : TimeSeries) (fresh : List Nat) :
    Except PyError (TimeSeries × List TSVal) :=
  match w.stateIdx fresh with
  | .error e => .error e
  | .ok (w1, t) =>
    if t < w1.len_ts then .ok (w1, colAt w1.timeseries t)
    else .error .indexError

/-- Per-tick reads of the world: sets `current_step` to `s`, reads the state
once, and repeats for `n` consecutive steps, collecting the internally visited
time indices. `freshs s` is the permutation `np.random.permutation` would
draw during the read at step `s`. -/
def visitRun (freshs : Nat → List Nat) :
    TimeSeries → Nat → Nat → Except PyError (TimeSeries × List Nat)
  | w, _, 0 => .ok (w, [])
  | w, s, n + 1 =>
    match TimeSeries.stateIdx { w with current_step := s } (freshs s) with
    | .error e => .error e
    | .ok (w1, t) =>
      match visitRun freshs w1 (s + 1) n with
      | .error e => .error e
      | .ok (w2, ts) => .ok (w2, t :: ts)

/-- A datasource-registration call on an `ArrayWorldAdapter`: either
`add_datasource(name, v)` or `add_datasource_group(name, shape, init)`. -/
inductive SourceOp where
  | scalar (name : String) (v : ℚ)
  | group (name : String) (shape : List Nat) (init : Option (List ℚ))
  deriving DecidableEq, Repr

/-- Performs one registration call. -/
def applySourceOp (w : ArrayWorldAdapter) : SourceOp → Except PyError ArrayWorldAdapter
  | .scalar n v => .ok (w.add_datasource n v).1
  | .group n sh init =>
    match w.add_datasource_group n sh init with
    | .error e => .error e
    | .ok (w', _) => .ok w'

/-- Performs a sequence of registration calls (the adapter's initialization
phase). -/
def applySourceOps : ArrayWorldAdapter → List SourceOp → Except PyError ArrayWorldAdapter
  | w, [] => .ok w
  | w, op :: ops =>
    match applySourceOp w op with
    | .error e => .error e
    | .ok w' => applySourceOps w' ops

/-- The channel names one registration call adds to the registry: the scalar
name itself, or the synthesized member names of the group. -/
def opNames : SourceOp → Except PyError (List String)
  | .scalar n _ => .ok [n]
  | .group n sh init =>
    match groupInitValues sh init with
    | .error e => .error e
    | .ok (size, _) => _generate_names n size sh

/-- The channel names a sequence of registration calls adds, in registration
order. -/
def opsNames : List SourceOp → Except PyError (List String)
  | [] => .ok []
  | op :: ops =>
    match opNames op with
    | .error e => .error e
    | .ok ns =>
      match opsNames ops with
      | .error e => .error e
      | .ok rest => .ok (ns ++ rest)

/-! Helper lemmas shared by the claim theorems. -/

/-- Python's `(step - 1) % length` agrees with natural subtraction-and-mod
once `step ≥ 1`. -/
lemma pymod_eq (s L : Nat) (hs : 1 ≤ s) :
    (((s : Int) - 1) % (L : Int)).toNat = (s - 1) % L := by
  have h1 : ((s : Int) - 1) = ((s - 1 : Nat) : Int) := by omega
  rw [h1]
  norm_cast

/-- A key outside the dictionary looks up to `none`. -/
lemma alookup_eq_none_of_not_mem (l : List (String × ℚ)) (k : String)
    (h : k ∉ l.map Prod.fst) : alookup l k = none := by
  induction l with
  | nil => rfl
  | cons kv rest ih =>
    simp only [List.map_cons, List.mem_cons, not_or] at h
    simp only [alookup, ih h.2]
    rw [if_neg (fun hh => h.1 hh.symm)]

/-- A name outside the list has no index. -/
lemma findIdx?_eq_none_of_not_mem (l : List String) (name : String)
    (h : name ∉ l) : l.findIdx? (fun y => decide (y = name)) = none := by
  rw [List.findIdx?_eq_none_iff]
  intro x hx
  simp only [decide_eq_false_iff_not]
  exact fun hh => h (hh ▸ hx)

/-- `add_datasource_group` with absent initial values always succeeds and
appends `prod(shape)` zero slots and the synthesized member names. -/
lemma add_datasource_group_none_eq (w : ArrayWorldAdapter) (name : String)
    (shape : List Nat) :
    w.add_datasource_group name shape none = .ok
      ({ w with
          _datasource_groups := dictSet w._datasource_groups name
            (w.datasource_names.length, w.datasource_names.length + listProd shape),
          datasource_names :=
            w.datasource_names ++ memberNames name (listProd shape) shape,
          datasource_values :=
            w.datasource_values ++ List.replicate (listProd shape) 0 },
        (w.datasource_names.length, w.datasource_names.length + listProd shape)) := by
  simp [ArrayWorldAdapter.add_datasource_group, groupInitValues, _generate_names]

/-! Claim theorems. -/

/-- C1: the claim says `add_datasource_group(name, shape, initial_values)`
followed by `get_datasource_group(name, shape)` returns the initial values
reshaped, for every full-size sequence of initial values. The code's own
docstring promises the same, but the guard `if initial_values:` raises
`ValueError` for every numpy array with more than one element (its truth
value is ambiguous), so any full-size initial-value array for a shape of two
or more cells makes the call fail before any mutation. The zero-fill path for
absent initial values does work, as the second conjunct shows. -/
theorem C1_initial_values_crash :
    ArrayWorldAdapter.add_datasource_group emptyArrayWorldAdapter "v" [2] (some [1, 2])
      = .error .valueError
    ∧ (ArrayWorldAdapter.add_datasource_group emptyArrayWorldAdapter "g" [2, 3] none).bind
        (fun p => p.1.get_datasource_group "g" (some [2, 3]))
      = .ok ⟨[2, 3], List.replicate 6 0⟩
    ∧ ArrayWorldAdapter.add_datatarget_group emptyArrayWorldAdapter "v" [2] (some [1, 2])
      = .error .valueError := by
  refine ⟨rfl, ?_, rfl⟩
  rfl

/-- C2 counterexample: the claim says registering an already-present name
raises `DuplicateNameError` and leaves the registry and buffer unchanged; in
the code `add_datasource` performs no duplicate check, so the second
registration of `"a"` succeeds and grows both the name list and the buffer. -/
theorem C2_counterexample :
    (((emptyArrayWorldAdapter.add_datasource "a" 0).1.add_datasource "a" 0).1).datasource_names
      = ["a", "a"]
    ∧ (((emptyArrayWorldAdapter.add_datasource "a" 0).1.add_datasource "a" 0).1).datasource_values.length
      = 2 := by
  exact ⟨rfl, rfl⟩

/-- C2 amended: registering a name that is already present does not raise;
the call appends one more slot (name list gains a duplicate, buffer grows by
one) and returns the new last index, for datasources and datatargets alike;
`add_datasource_group` likewise performs no collision check. -/
theorem C2_duplicate_appends (w : ArrayWorldAdapter) (name : String) (v : ℚ)
    (shape : List Nat) (_hdup : name ∈ w.datasource_names) :
    (w.add_datasource name v).1.datasource_names = w.datasource_names ++ [name]
    ∧ (w.add_datasource name v).1.datasource_values.length
        = w.datasource_values.length + 1
    ∧ (w.add_datasource name v).2 = w.datasource_names.length
    ∧ (w.add_datatarget name v).1.datatarget_values.length
        = w.datatarget_values.length + 1
    ∧ ∃ w' slce, w.add_datasource_group name shape none = .ok (w', slce)
        ∧ w'.datasource_names.length = w.datasource_names.length + listProd shape := by
  refine ⟨rfl, by simp [ArrayWorldAdapter.add_datasource],
    by simp [ArrayWorldAdapter.add_datasource],
    by simp [ArrayWorldAdapter.add_datatarget], ?_⟩
  refine ⟨_, _, add_datasource_group_none_eq w name shape, ?_⟩
  simp [memberNames]

/-- C2 witness: the amended statement at a concrete duplicate registration. -/
theorem C2_witness :
    "a" ∈ (emptyArrayWorldAdapter.add_datasource "a" 0).1.datasource_names
    ∧ (((emptyArrayWorldAdapter.add_datasource "a" 0).1.add_datasource "a" 0).1.datasource_names
        = (emptyArrayWorldAdapter.add_datasource "a" 0).1.datasource_names ++ ["a"]
      ∧ ((emptyArrayWorldAdapter.add_datasource "a" 0).1.add_datasource "a" 0).1.datasource_values.length
        = (emptyArrayWorldAdapter.add_datasource "a" 0).1.datasource_values.length + 1
      ∧ ((emptyArrayWorldAdapter.add_datasource "a" 0).1.add_datasource "a" 0).2
        = (emptyArrayWorldAdapter.add_datasource "a" 0).1.datasource_names.length
      ∧ ((emptyArrayWorldAdapter.add_datasource "a" 0).1.add_datatarget "a" 0).1.datatarget_values.length
        = (emptyArrayWorldAdapter.add_datasource "a" 0).1.datatarget_values.length + 1
      ∧ ∃ w' slce,
          (emptyArrayWorldAdapter.add_datasource "a" 0).1.add_datasource_group "a" [3] none
            = .ok (w', slce)
          ∧ w'.datasource_names.length
            = (emptyArrayWorldAdapter.add_datasource "a" 0).1.datasource_names.length
              + listProd [3]) :=
  ⟨by decide,
   C2_duplicate_appends (emptyArrayWorldAdapter.add_datasource "a" 0).1 "a" 0 [3] (by decide)⟩

/-- C3 counterexample: the claim says a not-entirely-undefined row with zero
standard deviation is left untouched by the load-time normalization. The row
`[5, 5]` has zero variance, so `data_z`'s row is never assigned and stays NaN:
the loaded row is `[NaN, NaN]`, not `[5, 5]` (shown with the identity
standing in for the scalar z-transform and the sigmoid, which the NaN row
never reaches). -/
theorem C3_counterexample :
    nanvar [some (5 : ℚ), some 5] = 0
    ∧ ([some (5 : ℚ), some 5].all (fun x => x.isNone)) = false
    ∧ loadNormalize (fun v _ _ => v) (fun v => v) [[some 5, some 5]]
        = [[none, none]]
    ∧ loadNormalize (fun v _ _ => v) (fun v => v) [[some 5, some 5]]
        ≠ [[some 5, some 5]] := by
  have hvar : nanvar [some (5 : ℚ), some 5] = 0 := by
    norm_num [nanvar, nanVals, nanmean, List.filterMap_cons, List.sum_cons]
  refine ⟨hvar, rfl, ?_, ?_⟩
  · simp [loadNormalize, hvar]
  · simp [loadNormalize, hvar]

/-- C3 amended: a row that is not entirely undefined but has zero variance
(equivalently zero standard deviation) is not left untouched: the load-time
normalization replaces it with an entirely undefined (NaN) row, for every
instantiation of the scalar z-transform and of the sigmoid guard. -/
theorem C3_zero_std_row_becomes_nan (zscale : ℚ → ℚ → ℚ → ℚ) (sigm : ℚ → ℚ)
    (ts : List (List TSVal)) (i : Nat) (row : List TSVal)
    (hrow : ts[i]? = some row)
    (hdef : row.all (fun x => x.isNone) = false)
    (hvar : nanvar row = 0) :
    (loadNormalize zscale sigm ts)[i]? = some (List.replicate row.length none) := by
  unfold loadNormalize
  simp only [List.getElem?_map, hrow, Option.map_some']
  rw [hdef, hvar]
  simp

/-- C3 witness: the amended statement evaluated at a concrete dataset. -/
theorem C3_witness :
    ([[some (3 : ℚ), some 3, none]])[0]? = some [some (3 : ℚ), some 3, none]
    ∧ ([some (3 : ℚ), some 3, none].all (fun x => x.isNone)) = false
    ∧ nanvar [some (3 : ℚ), some 3, none] = 0
    ∧ (loadNormalize (fun v m _ => v - m) (fun v => 2 * v)
        [[some (3 : ℚ), some 3, none]])[0]?
      = some (List.replicate ([some (3 : ℚ), some 3, none].length) none) :=
  ⟨rfl, rfl,
   by norm_num [nanvar, nanVals, nanmean, List.filterMap_cons, List.sum_cons],
   C3_zero_std_row_becomes_nan (fun v m _ => v - m) (fun v => 2 * v)
     [[some 3, some 3, none]] 0 [some 3, some 3, none]
     rfl rfl
     (by norm_num [nanvar, nanVals, nanmean, List.filterMap_cons, List.sum_cons])⟩

/-- C4 counterexample: the claim says the scalar getters raise
`UnknownChannelError` for an unregistered name. In the dictionary-based
adapter, `get_datasource_value` returns Python `None` and
`get_datatarget_feedback_value` returns the default `0` — the bad name is
silently coerced, no exception is raised. -/
theorem C4_counterexample :
    WorldAdapter.get_datasource_value emptyWorldAdapter "x" = none
    ∧ WorldAdapter.get_datatarget_feedback_value emptyWorldAdapter "x" = 0 := by
  exact ⟨rfl, rfl⟩

/-- C4 amended: for a name that is not registered, the dictionary-based
getters do not raise: `get_datasource_value` returns `None` and
`get_datatarget_feedback_value` returns `0`; the array-based getters do raise,
but a plain `ValueError` from `list.index`, not an `UnknownChannelError`. -/
theorem C4_unknown_name_behavior (d : WorldAdapter) (a : ArrayWorldAdapter)
    (key : String)
    (hs : key ∉ d.datasources.map Prod.fst)
    (hf : key ∉ d.datatarget_feedback.map Prod.fst)
    (ha : key ∉ a.datasource_names)
    (ht : key ∉ a.datatarget_names) :
    d.get_datasource_value key = none
    ∧ d.get_datatarget_feedback_value key = 0
    ∧ a.get_datasource_value key = .error .valueError
    ∧ a.get_datatarget_value key = .error .valueError
    ∧ a.get_datatarget_feedback_value key = .error .valueError := by
  have h1 := alookup_eq_none_of_not_mem d.datasources key hs
  have h2 := alookup_eq_none_of_not_mem d.datatarget_feedback key hf
  have h3 := findIdx?_eq_none_of_not_mem a.datasource_names key ha
  have h4 := findIdx?_eq_none_of_not_mem a.datatarget_names key ht
  refine ⟨h1, ?_, ?_, ?_, ?_⟩
  · rw [WorldAdapter.get_datatarget_feedback_value, h2]
    rfl
  · rw [ArrayWorldAdapter.get_datasource_value,
      ArrayWorldAdapter.get_datasource_index, h3]
  · rw [ArrayWorldAdapter.get_datatarget_value,
      ArrayWorldAdapter.get_datatarget_index, h4]
  · rw [ArrayWorldAdapter.get_datatarget_feedback_value,
      ArrayWorldAdapter.get_datatarget_index, h4]

/-- C4 witness: the amended statement at concrete empty adapters and a
concrete unknown name. -/
theorem C4_witness :
    ("x" ∉ emptyWorldAdapter.datasources.map Prod.fst)
    ∧ ("x" ∉ emptyArrayWorldAdapter.datasource_names)
    ∧ (WorldAdapter.get_datasource_value emptyWorldAdapter "x" = none
      ∧ WorldAdapter.get_datatarget_feedback_value emptyWorldAdapter "x" = 0
      ∧ ArrayWorldAdapter.get_datasource_value emptyArrayWorldAdapter "x" = .error .valueError
      ∧ ArrayWorldAdapter.get_datatarget_value emptyArrayWorldAdapter "x" = .error .valueError
      ∧ ArrayWorldAdapter.get_datatarget_feedback_value emptyArrayWorldAdapter "x"
          = .error .valueError) :=
  ⟨by decide, by decide,
   C4_unknown_name_behavior emptyWorldAdapter emptyArrayWorldAdapter "x"
     (by decide) (by decide) (by decide) (by decide)⟩

/-- C7: `WorldAdapter.reset_datatargets` zeroes every registered datatarget
value and leaves the set of registered datatarget names untouched. -/
theorem C7_reset_zeroes_targets (w : WorldAdapter) :
    (w.reset_datatargets).datatargets.map Prod.fst = w.datatargets.map Prod.fst
    ∧ (w.reset_datatargets).datatargets.map Prod.snd
        = List.replicate w.datatargets.length 0
    ∧ (w.reset_datatargets).get_available_datatargets = w.get_available_datatargets := by
  have hfst : (w.reset_datatargets).datatargets.map Prod.fst
      = w.datatargets.map Prod.fst := by
    simp [WorldAdapter.reset_datatargets, List.map_map, Function.comp]
  refine ⟨hfst, ?_, ?_⟩
  · simp [WorldAdapter.reset_datatargets, List.map_map, Function.comp_def,
      List.map_const']
  · rw [WorldAdapter.get_available_datatargets, WorldAdapter.get_available_datatargets,
      hfst]

/-- C8: one invocation of `WorldAdapter.update` performs exactly the calls
`update_data_sources_and_targets()` then `reset_datatargets()`, in that fixed
order, each exactly once, and the resulting state is precisely the reset
applied to the hook's result. -/
theorem C8_update_order (hook : WorldAdapter → WorldAdapter) (w : WorldAdapter) :
    WorldAdapter.update hook w = WorldAdapter.reset_datatargets (hook w)
    ∧ WorldAdapter.updateBody
        = [AdapterCall.update_data_sources_and_targets, AdapterCall.reset_datatargets]
    ∧ WorldAdapter.updateBody.count AdapterCall.update_data_sources_and_targets = 1
    ∧ WorldAdapter.updateBody.count AdapterCall.reset_datatargets = 1 := by
  exact ⟨rfl, rfl, by decide, by decide⟩

/-- C10: `ArrayWorldAdapter` overrides `reset_datatargets` to a no-op (`pass`),
so the whole adapter state — datatarget buffer included — is unchanged by the
reset, and the inherited `update` does not zero the target buffer between
ticks. -/
theorem C10_array_reset_noop (a : ArrayWorldAdapter)
    (hook : ArrayWorldAdapter → ArrayWorldAdapter) :
    a.reset_datatargets = a
    ∧ ArrayWorldAdapter.update hook a = hook a
    ∧ (ArrayWorldAdapter.update hook a).datatarget_values = (hook a).datatarget_values := by
  exact ⟨rfl, rfl, rfl⟩

/-- Reading the state with `shuffle` on, away from the wrap position: the
stored permutation is kept and indexes the visit. -/
lemma stateIdx_shuffle_mid (w : TimeSeries) (fresh : List Nat) (p : List Nat) (t : Nat)
    (hsh : w.shuffle = true) (hL : w.len_ts ≠ 0)
    (ht : (((w.current_step : Int) - 1) % (w.len_ts : Int)).toNat = t)
    (ht0 : t ≠ 0) (hperm : w.permutation = some p) (htp : t < p.length) :
    w.stateIdx fresh = .ok (w, p[t]) := by
  unfold TimeSeries.stateIdx
  rw [if_neg hL]
  simp only [ht, hsh, if_true, if_neg ht0, hperm]
  rw [List.getElem?_eq_getElem htp]

/-- Reading the state with `shuffle` on at the wrap position `t = 0`: the
permutation is regenerated from the freshly drawn one before use. -/
lemma stateIdx_shuffle_wrap (w : TimeSeries) (fresh : List Nat)
    (hsh : w.shuffle = true) (hL : w.len_ts ≠ 0)
    (ht : (((w.current_step : Int) - 1) % (w.len_ts : Int)).toNat = 0)
    (hfp : 0 < fresh.length) :
    w.stateIdx fresh = .ok ({ w with permutation := some fresh }, fresh[0]) := by
  unfold TimeSeries.stateIdx
  rw [if_neg hL]
  simp only [ht, hsh, if_true, if_pos rfl]
  rw [List.getElem?_eq_getElem hfp]

/-- A shuffled run that starts one past the wrap position and stays within
the cycle visits the stored permutation's tail, keeping the permutation. -/
lemma visitRun_tail (freshs : Nat → List Nat) (L : Nat) (p : List Nat)
    (hp : p.length = L) :
    ∀ n j q (w : TimeSeries), j + n = L → 1 ≤ j →
      w.shuffle = true → w.len_ts = L → w.permutation = some p →
      ∃ w', visitRun freshs w (q * L + j + 1) n = .ok (w', p.drop j)
        ∧ w'.shuffle = true ∧ w'.len_ts = L ∧ w'.permutation = some p := by
  intro n
  induction n with
  | zero =>
    intro j q w hjn _ hsh hlen hperm
    refine ⟨w, ?_, hsh, hlen, hperm⟩
    have hd : p.drop j = [] := by
      apply List.drop_eq_nil_of_le
      omega
    rw [hd]
    rfl
  | succ m ih =>
    intro j q w hjn hj hsh hlen hperm
    have hjL : j < L := by omega
    have hjp : j < p.length := by omega
    have ht : ((((q * L + j + 1 : Nat) : Int) - 1) % ((L : Nat) : Int)).toNat = j := by
      rw [pymod_eq _ _ (by omega)]
      simp only [Nat.add_sub_cancel]
      rw [Nat.add_comm (q * L) j, Nat.add_mul_mod_self_right, Nat.mod_eq_of_lt hjL]
    have hstep :=
      stateIdx_shuffle_mid { w with current_step := q * L + j + 1 }
        (freshs (q * L + j + 1)) p j hsh
        (by show w.len_ts ≠ 0; omega)
        (by show ((((q * L + j + 1 : Nat) : Int) - 1) % ((w.len_ts : Nat) : Int)).toNat = j
            rw [hlen]; exact ht)
        (by omega) hperm hjp
    have harg : q * L + j + 1 + 1 = q * L + (j + 1) + 1 := by omega
    obtain ⟨w', hrun, h1, h2, h3⟩ :=
      ih (j + 1) q { w with current_step := q * L + j + 1 }
        (by omega) (by omega) hsh hlen hperm
    refine ⟨w', ?_, h1, h2, h3⟩
    show (match TimeSeries.stateIdx { w with current_step := q * L + j + 1 }
              (freshs (q * L + j + 1)) with
          | .error e => .error e
          | .ok (w1, t) =>
            match visitRun freshs w1 (q * L + j + 1 + 1) m with
            | .error e => .error e
            | .ok (w2, ts) => .ok (w2, t :: ts)) = Except.ok (w', p.drop j)
    rw [hstep, harg]
    show (match visitRun freshs { w with current_step := q * L + j + 1 }
              (q * L + (j + 1) + 1) m with
          | Except.error e => Except.error e
          | Except.ok (w2, ts) => Except.ok (w2, p[j] :: ts)) = Except.ok (w', p.drop j)
    rw [hrun]
    show Except.ok (w', p[j] :: p.drop (j + 1)) = Except.ok (w', p.drop j)
    rw [List.drop_eq_getElem_cons hjp]

/-- Reading the state with `shuffle` off: the wrapped step position indexes
the dataset directly and nothing is mutated. -/
lemma stateIdx_no_shuffle (w : TimeSeries) (fresh : List Nat)
    (hsh : w.shuffle = false) (hL : w.len_ts ≠ 0) :
    w.stateIdx fresh
      = .ok (w, (((w.current_step : Int) - 1) % (w.len_ts : Int)).toNat) := by
  unfold TimeSeries.stateIdx
  rw [if_neg hL]
  simp only [hsh]
  rfl

/-- C5: with `shuffle` disabled, the per-tick read at step `s ≥ 1` returns
exactly column `(s - 1) mod len_ts` of the loaded dataset and leaves the world
unchanged; the result does not depend on the drawn permutation `fresh` at all,
so two reads with the same step and dataset return identical vectors. -/
theorem C5_no_shuffle_pure_column (w : TimeSeries) (s : Nat) (fresh : List Nat)
    (hs : 1 ≤ s) (hL : 0 < w.len_ts) (hsh : w.shuffle = false) :
    TimeSeries.state { w with current_step := s } fresh
      = .ok ({ w with current_step := s },
             colAt w.timeseries ((s - 1) % w.len_ts)) := by
  have hidx := stateIdx_no_shuffle { w with current_step := s } fresh hsh
    (by show w.len_ts ≠ 0; omega)
  unfold TimeSeries.state
  rw [hidx]
  have ht : ((((s : Nat) : Int) - 1) % ((w.len_ts : Nat) : Int)).toNat
      = (s - 1) % w.len_ts := pymod_eq s w.len_ts hs
  show (if ((((s : Nat) : Int) - 1) % ((w.len_ts : Nat) : Int)).toNat < w.len_ts
        then Except.ok ({ w with current_step := s },
          colAt w.timeseries ((((s : Nat) : Int) - 1) % ((w.len_ts : Nat) : Int)).toNat)
        else Except.error PyError.indexError)
      = Except.ok ({ w with current_step := s },
          colAt w.timeseries ((s - 1) % w.len_ts))
  rw [ht, if_pos (Nat.mod_lt _ hL)]

/-- C5 witness: a concrete no-shuffle world read at step 3 of a length-2
dataset yields column 0. -/
theorem C5_witness :
    1 ≤ 3
    ∧ 0 < (⟨[[some 1, some 2]], 2, false, none, 0⟩ : TimeSeries).len_ts
    ∧ TimeSeries.state
        { (⟨[[some 1, some 2]], 2, false, none, 0⟩ : TimeSeries) with current_step := 3 }
        []
      = .ok ({ (⟨[[some 1, some 2]], 2, false, none, 0⟩ : TimeSeries) with
                current_step := 3 },
             colAt [[some 1, some 2]] ((3 - 1) % 2)) :=
  ⟨by decide, by decide,
   C5_no_shuffle_pure_column ⟨[[some 1, some 2]], 2, false, none, 0⟩ 3 []
     (by decide) (by decide) rfl⟩

/-- C6: with `shuffle` enabled and dataset length `L > 0`, across the `L`
consecutive reads at steps `k*L+1, ..., (k+1)*L` the internally visited time
indices are exactly the freshly drawn permutation — hence, whenever
`np.random.permutation` delivers a permutation of `[0, L)` (its contract),
the visited indices cover `{0, ..., L-1}` exactly once each. The permutation
is regenerated from the fresh draw at the wrap read (`t = 0`, the first of
the `L` reads) and is retained unchanged through the remaining `L - 1`
reads, as the final world's `permutation` field shows. -/
theorem C6_shuffle_covers (w : TimeSeries) (L k : Nat) (freshs : Nat → List Nat)
    (hL : 0 < L) (hlen : w.len_ts = L) (hsh : w.shuffle = true)
    (hperm : (freshs (k * L + 1)).Perm (List.range L)) :
    ∃ w', visitRun freshs w (k * L + 1) L = .ok (w', freshs (k * L + 1))
      ∧ w'.permutation = some (freshs (k * L + 1))
      ∧ (freshs (k * L + 1)).Perm (List.range L) := by
  obtain ⟨m, rfl⟩ : ∃ m, L = m + 1 := ⟨L - 1, by omega⟩
  set p := freshs (k * (m + 1) + 1) with hpdef
  have hplen : p.length = m + 1 := by rw [hperm.length_eq, List.length_range]
  have hp0 : 0 < p.length := by omega
  have h0 := stateIdx_shuffle_wrap { w with current_step := k * (m + 1) + 1 } p hsh
    (by show w.len_ts ≠ 0; omega)
    (by show ((((k * (m + 1) + 1 : Nat) : Int) - 1) % ((w.len_ts : Nat) : Int)).toNat = 0
        rw [hlen, pymod_eq _ _ (by omega)]
        simp [Nat.mul_mod_left])
    hp0
  obtain ⟨w', hrun, _h1, _h2, hpw⟩ :=
    visitRun_tail freshs (m + 1) p hplen m 1 k
      { w with current_step := k * (m + 1) + 1, permutation := some p }
      (by omega) (by omega) hsh
      (by show w.len_ts = m + 1; exact hlen) rfl
  refine ⟨w', ?_, hpw, hperm⟩
  show (match TimeSeries.stateIdx { w with current_step := k * (m + 1) + 1 } p with
        | .error e => .error e
        | .ok (w1, t) =>
          match visitRun freshs w1 (k * (m + 1) + 1 + 1) m with
          | .error e => .error e
          | .ok (w2, ts) => .ok (w2, t :: ts)) = Except.ok (w', p)
  rw [h0]
  show (match visitRun freshs
            { w with current_step := k * (m + 1) + 1, permutation := some p }
            (k * (m + 1) + 1 + 1) m with
        | Except.error e => Except.error e
        | Except.ok (w2, ts) => Except.ok (w2, p[0] :: ts)) = Except.ok (w', p)
  have harg : k * (m + 1) + 1 + 1 = k * (m + 1) + 1 + 1 := rfl
  rw [hrun]
  show Except.ok (w', p[0] :: p.drop 1) = Except.ok (w', p)
  rw [show p[0] :: p.drop 1 = p.drop 0 from (List.drop_eq_getElem_cons hp0).symm,
    List.drop_zero]

/-- C6 witness: a concrete shuffled world of length 2, starting at step 1,
with the fresh draw `[1, 0]`. -/
theorem C6_witness :
    0 < 2
    ∧ ([1, 0] : List Nat).Perm (List.range 2)
    ∧ ∃ w', visitRun (fun _ => [1, 0])
          (⟨[[some 1, some 2]], 2, true, none, 0⟩ : TimeSeries) (0 * 2 + 1) 2
        = .ok (w', [1, 0])
      ∧ w'.permutation = some [1, 0]
      ∧ ([1, 0] : List Nat).Perm (List.range 2) :=
  ⟨by decide, by decide,
   C6_shuffle_covers ⟨[[some 1, some 2]], 2, true, none, 0⟩ 2 0 (fun _ => [1, 0])
     (by decide) rfl rfl (by decide)⟩

/-- The flattened initial values resolved for a group always have exactly the
resolved size. -/
lemma groupInitValues_length (sh : List Nat) (init : Option (List ℚ)) (size : Nat)
    (vals : List ℚ) (h : groupInitValues sh init = .ok (size, vals)) :
    vals.length = size := by
  unfold groupInitValues at h
  split at h
  · simp only [Except.ok.injEq, Prod.mk.injEq] at h
    obtain ⟨h1, h2⟩ := h
    subst h1
    rw [← h2]
    exact List.length_replicate ..
  · split at h
    · exact Except.noConfusion h
    · simp only [Except.ok.injEq, Prod.mk.injEq] at h
      obtain ⟨h1, h2⟩ := h
      subst h1
      rw [← h2]
    · simp only [Except.ok.injEq, Prod.mk.injEq] at h
      obtain ⟨h1, h2⟩ := h
      subst h1
      rw [← h2]
      exact List.length_replicate ..

/-- `_generate_names`, when it succeeds, returns exactly `size` names. -/
lemma generate_names_length (b : String) (size : Nat) (sh : List Nat)
    (ns : List String) (h : _generate_names b size sh = .ok ns) :
    ns.length = size := by
  unfold _generate_names at h
  split at h
  · injection h with h
    rw [← h]
    simp [memberNames]
  · exact Except.noConfusion h

/-- One successful registration call appends exactly its member names to the
name list and the same number of slots to the value buffer. -/
lemma applySourceOp_names (w w1 : ArrayWorldAdapter) (op : SourceOp)
    (h : applySourceOp w op = .ok w1) :
    ∃ ns, opNames op = .ok ns
      ∧ w1.datasource_names = w.datasource_names ++ ns
      ∧ w1.datasource_values.length = w.datasource_values.length + ns.length := by
  cases op with
  | scalar n v =>
    injection h with h
    subst h
    exact ⟨[n], rfl, rfl, by simp [ArrayWorldAdapter.add_datasource]⟩
  | group n sh init =>
    simp only [applySourceOp] at h
    cases hg : w.add_datasource_group n sh init with
    | error e =>
      rw [hg] at h
      exact Except.noConfusion h
    | ok pr =>
      rw [hg] at h
      injection h with h
      subst h
      unfold ArrayWorldAdapter.add_datasource_group at hg
      split at hg
      · exact Except.noConfusion hg
      · rename_i size init' hgv
        split at hg
        · exact Except.noConfusion hg
        · rename_i names hgn
          injection hg with hg
          subst hg
          refine ⟨names, ?_, rfl, ?_⟩
          · simp only [opNames, hgv, hgn]
          · simp only [List.length_append]
            rw [groupInitValues_length sh init size init' hgv,
              generate_names_length n size sh names hgn]

/-- A successful initialization phase appends exactly the registered member
names, in registration order, and the value buffer grows in lock step. -/
lemma applySourceOps_names (ops : List SourceOp) :
    ∀ w w', applySourceOps w ops = .ok w' →
      ∃ ns, opsNames ops = .ok ns
        ∧ w'.datasource_names = w.datasource_names ++ ns
        ∧ w'.datasource_values.length = w.datasource_values.length + ns.length := by
  induction ops with
  | nil =>
    intro w w' h
    injection h with h
    subst h
    exact ⟨[], rfl, by simp, by simp⟩
  | cons op ops ih =>
    intro w w' h
    unfold applySourceOps at h
    split at h
    · exact Except.noConfusion h
    · rename_i w1 hop
      obtain ⟨ns1, hn1, he1, hl1⟩ := applySourceOp_names w w1 op hop
      obtain ⟨ns2, hn2, he2, hl2⟩ := ih w1 w' h
      refine ⟨ns1 ++ ns2, ?_, ?_, ?_⟩
      · simp only [opsNames, hn1, hn2]
      · rw [he2, he1, List.append_assoc]
      · rw [hl2, hl1, List.length_append]
        omega

/-- C9 counterexample: the claim says the names returned by
`get_available_datasources()` are in registration order for every adapter.
The dictionary-based adapter returns them sorted: registering `"b"` then
`"a"` yields `["a", "b"]`, not the registration order `["b", "a"]`. -/
theorem C9_counterexample :
    WorldAdapter.get_available_datasources ⟨[("b", 0), ("a", 0)], [], []⟩ = ["a", "b"]
    ∧ (⟨[("b", 0), ("a", 0)], [], []⟩ : WorldAdapter).datasources.map Prod.fst
      = ["b", "a"]
    ∧ (["a", "b"] : List String) ≠ ["b", "a"] := by
  exact ⟨rfl, rfl, by decide⟩

/-- C9 amended: for the `ArrayWorldAdapter`, any successful initialization
phase keeps `len(datasource_values) = len(get_available_datasources())` (from
any aligned state), and `get_available_datasources()` is exactly the prior
names extended by the registered scalar and group-member names, in
registration order. The dictionary-based adapter also keeps the length
equality, but returns its names sorted alphabetically rather than in
registration order. -/
theorem C9_names_alignment (ops : List SourceOp) (w w' : ArrayWorldAdapter)
    (d : WorldAdapter)
    (hinv : w.datasource_values.length = w.datasource_names.length)
    (happ : applySourceOps w ops = .ok w') :
    w'.datasource_values.length = (w'.get_available_datasources).length
    ∧ (∃ ns, opsNames ops = .ok ns
        ∧ w'.get_available_datasources = w.datasource_names ++ ns)
    ∧ d.get_available_datasources = sortedStrings (d.datasources.map Prod.fst)
    ∧ (d.get_datasource_values).length = (d.get_available_datasources).length := by
  obtain ⟨ns, hn, he, hl⟩ := applySourceOps_names ops w w' happ
  refine ⟨?_, ⟨ns, hn, he⟩, rfl, ?_⟩
  · show w'.datasource_values.length = w'.datasource_names.length
    rw [hl, he, List.length_append, hinv]
  · simp [WorldAdapter.get_datasource_values]

/-- C9 witness: a concrete initialization with one scalar and one group of
shape `(2,)`, next to a concrete dictionary-based adapter. -/
theorem C9_witness :
    emptyArrayWorldAdapter.datasource_values.length
      = emptyArrayWorldAdapter.datasource_names.length
    ∧ applySourceOps emptyArrayWorldAdapter
        [SourceOp.scalar "a" 0, SourceOp.group "g" [2] none]
      = .ok ⟨["a", "g_0", "g_1"], [], [("g", (1, 3))], [], [0, 0, 0], [], []⟩
    ∧ ((⟨["a", "g_0", "g_1"], [], [("g", (1, 3))], [], [0, 0, 0], [], []⟩ :
          ArrayWorldAdapter).datasource_values.length
        = ((⟨["a", "g_0", "g_1"], [], [("g", (1, 3))], [], [0, 0, 0], [], []⟩ :
          ArrayWorldAdapter).get_available_datasources).length
      ∧ (∃ ns, opsNames [SourceOp.scalar "a" 0, SourceOp.group "g" [2] none] = .ok ns
          ∧ (⟨["a", "g_0", "g_1"], [], [("g", (1, 3))], [], [0, 0, 0], [], []⟩ :
              ArrayWorldAdapter).get_available_datasources
            = emptyArrayWorldAdapter.datasource_names ++ ns)
      ∧ WorldAdapter.get_available_datasources ⟨[("b", 0)], [], []⟩
          = sortedStrings ((⟨[("b", 0)], [], []⟩ : WorldAdapter).datasources.map Prod.fst)
      ∧ (WorldAdapter.get_datasource_values ⟨[("b", 0)], [], []⟩).length
          = (WorldAdapter.get_available_datasources ⟨[("b", 0)], [], []⟩).length) :=
  ⟨rfl, rfl,
   C9_names_alignment [SourceOp.scalar "a" 0, SourceOp.group "g" [2] none]
     emptyArrayWorldAdapter
     ⟨["a", "g_0", "g_1"], [], [("g", (1, 3))], [], [0, 0, 0], [], []⟩
     ⟨[("b", 0)], [], []⟩ rfl rfl⟩
